import Mathlib

/-!
Shallow embedding of the follow-up reminder / push-notification pipeline of
the field-track CRM backend (src/crm/services.py, src/crm/models.py,
src/crm/signals.py), together with theorems checking the specification's
claims about it.

Modelling conventions:
* Django model instances become Lean structures; nullable / blank fields
  become `Option`.
* `get_access_token()` (services.py lines 16-42) either returns a bearer
  token string or `None` (every exception is caught and turned into `None`),
  so a call's outcome is passed in as `cred : Option String`.
* The HTTP POST to the push endpoint either raises a transport exception or
  yields a response; for a response we keep its status code and the error
  text the client extracts from its body (`error.message` when the body
  parses as structured JSON, else the raw text) — the extraction itself is
  external JSON parsing, so the extracted text is carried as data.
* Database writes (`NotificationLog.objects.create`, `followup.save()`) are
  made explicit: each send returns the list of log rows it created, and the
  reminder scanner returns the updated follow-up table.
-/

namespace FieldTrack

/-- `UserProfile` (models.py lines 37-57): `fcm_token` is `blank=True,
null=True`, so it is `Option String`, with `some ""` for a stored blank. -/
structure Profile where
  fcmToken : Option String
  deriving Repr, DecidableEq

/-- A Django auth `User`; `profile` is `none` when the related
`UserProfile` row does not exist (`hasattr(user, 'profile')` is false). -/
structure User where
  id : Nat
  profile : Option Profile
  deriving Repr, DecidableEq

/-- The Python truthiness test `hasattr(user, 'profile') and
user.profile.fcm_token` (services.py lines 47, 187): yields the token when
the profile exists and the token is neither `None` nor the empty string. -/
def tokenOf (u : User) : Option String :=
  match u.profile with
  | Option.none => Option.none
  | some p =>
    match p.fcmToken with
    | Option.none => Option.none
    | some t => if t = "" then Option.none else some t

/-- `hasToken u` is the boolean form of the token precondition; it is also
the ORM filter `profile__fcm_token__isnull=False` + `exclude(fcm_token='')`
used by the broadcast dispatcher (services.py line 157). -/
def hasToken (u : User) : Bool :=
  (tokenOf u).isSome

/-- A Python value placed in a notification data dict: `None`, a string, or
an integer (anything whose `str()` we need). -/
inductive PyValue where
  | none
  | str (s : String)
  | int (n : Int)
  deriving Repr, DecidableEq

/-- Python `str(value)`. -/
def pyStr : PyValue → String
  | PyValue.none => "None"
  | PyValue.str s => s
  | PyValue.int n => toString n

/-- The coercion `str(value) if value is not None else ""` applied to each
data value (services.py line 219). -/
def coerceValue : PyValue → String
  | PyValue.none => ""
  | v => pyStr v

/-- The loop building `fcm_data` from the caller's `data` dict
(services.py lines 216-219). -/
def coerceData (d : List (String × PyValue)) : List (String × String) :=
  d.map (fun kv => (kv.1, coerceValue kv.2))

/-- Python `dict.get(key, default)` on a string-to-string dict. -/
def dictGet (m : List (String × String)) (k dflt : String) : String :=
  match m.find? (fun kv => kv.1 == k) with
  | some kv => kv.2
  | Option.none => dflt

/-- The `"android"` block of the FCM v2 payload. -/
structure AndroidHints where
  priority : String
  sound : String
  channelId : String
  deriving Repr, DecidableEq

/-- The `"apns"` block: the `apns-priority` header, the `aps.sound` value
and the optional `aps.badge` value. -/
structure ApnsHints where
  apnsPriority : String
  sound : String
  badge : Option Nat
  deriving Repr, DecidableEq

/-- The `"webpush"` block: its notification fields and the
`fcm_options.link` value. -/
structure WebpushHints where
  title : String
  body : String
  icon : String
  badge : String
  link : String
  deriving Repr, DecidableEq

/-- The `"message"` object POSTed to the FCM v2 endpoint: token,
notification title/body, the all-string data map, and the three optional
platform hint sections. -/
structure FcmMessage where
  token : String
  notificationTitle : String
  notificationBody : String
  data : List (String × String)
  android : Option AndroidHints
  apns : Option ApnsHints
  webpush : Option WebpushHints
  deriving Repr, DecidableEq

/-- The payload literal of `send_fcm_notification` (services.py lines
76-106): data block `type`/`title`/`body`, android and apns hints, and no
webpush section. -/
def fcmPayload (fcmToken title message notificationType : String) : FcmMessage :=
  { token := fcmToken
    notificationTitle := title
    notificationBody := message
    data := [("type", notificationType), ("title", title), ("body", message)]
    android := some { priority := "high", sound := "default", channelId := "high_importance_channel" }
    apns := some { apnsPriority := "10", sound := "default", badge := Option.none }
    webpush := Option.none }

/-- The payload literal of `send_fcm_notification_with_data` (services.py
lines 215-260): the data block is exactly the string-coerced caller dict,
and android, apns (with badge 1) and webpush sections are present. -/
def fcmPayloadWithData (fcmToken title message : String)
    (data : Option (List (String × PyValue))) : FcmMessage :=
  let fcmData := match data with
    | Option.none => []
    | some d => coerceData d
  { token := fcmToken
    notificationTitle := title
    notificationBody := message
    data := fcmData
    android := some { priority := "high", sound := "default", channelId := "high_importance_channel" }
    apns := some { apnsPriority := "10", sound := "default", badge := some 1 }
    webpush := some { title := title, body := message, icon := "/favicon.ico",
                      badge := "/favicon.ico", link := dictGet fcmData "link" "/" } }

/-- Outcome of the `requests.post` call: a response (status code plus the
error text the client would extract from the body) or a raised transport
exception with its `str(e)`. -/
inductive HttpResult where
  | response (status : Nat) (errorText : String)
  | exception (message : String)
  deriving Repr, DecidableEq

/-- A `NotificationLog` row (models.py lines 163-180) as created by the
delivery client. -/
structure NotificationLog where
  userId : Nat
  title : String
  message : String
  notificationType : String
  fcmToken : String
  success : Bool
  errorMessage : String
  deriving Repr, DecidableEq

/-- What one delivery-client call did: its return value, the log rows it
created, how many times it called the credential provider, how many HTTP
POSTs it issued, and the payload it posted (if it reached the POST). -/
structure SendResult where
  success : Bool
  logs : List NotificationLog
  credCalls : Nat
  httpCalls : Nat
  posted : Option FcmMessage
  deriving Repr, DecidableEq

/-- `send_fcm_notification(user, title, message, notification_type)`
(services.py lines 45-141). Missing/empty token: immediate `False` with no
credential call, no POST, no log. Credential failure: one failure log with
the fixed message, no POST. Otherwise one POST; status 200 means success
with empty error text, any other status a failure log with the extracted
error text, and a transport exception a failure log with the exception
text. Exactly one log row in every path past the token precondition. -/
def send_fcm_notification (cred : Option String) (http : HttpResult)
    (user : User) (title message notificationType : String) : SendResult :=
  match tokenOf user with
  | Option.none =>
    { success := false, logs := [], credCalls := 0, httpCalls := 0, posted := Option.none }
  | some fcmToken =>
    match cred with
    | Option.none =>
      { success := false
        logs := [{ userId := user.id, title := title, message := message,
                   notificationType := notificationType, fcmToken := fcmToken,
                   success := false, errorMessage := "Failed to get OAuth2 access token" }]
        credCalls := 1, httpCalls := 0, posted := Option.none }
    | some _ =>
      let payload := fcmPayload fcmToken title message notificationType
      match http with
      | HttpResult.response status errorText =>
        let ok := status == 200
        { success := ok
          logs := [{ userId := user.id, title := title, message := message,
                     notificationType := notificationType, fcmToken := fcmToken,
                     success := ok, errorMessage := if ok then "" else errorText }]
          credCalls := 1, httpCalls := 1, posted := some payload }
      | HttpResult.exception msg =>
        { success := false
          logs := [{ userId := user.id, title := title, message := message,
                     notificationType := notificationType, fcmToken := fcmToken,
                     success := false, errorMessage := msg }]
          credCalls := 1, httpCalls := 1, posted := some payload }

/-- `send_fcm_notification_with_data(user, title, message,
notification_type, data)` (services.py lines 185-295): same control flow as
`send_fcm_notification` but posting the with-data payload. -/
def send_fcm_notification_with_data (cred : Option String) (http : HttpResult)
    (user : User) (title message notificationType : String)
    (data : Option (List (String × PyValue))) : SendResult :=
  match tokenOf user with
  | Option.none =>
    { success := false, logs := [], credCalls := 0, httpCalls := 0, posted := Option.none }
  | some fcmToken =>
    match cred with
    | Option.none =>
      { success := false
        logs := [{ userId := user.id, title := title, message := message,
                   notificationType := notificationType, fcmToken := fcmToken,
                   success := false, errorMessage := "Failed to get OAuth2 access token" }]
        credCalls := 1, httpCalls := 0, posted := Option.none }
    | some _ =>
      let payload := fcmPayloadWithData fcmToken title message data
      match http with
      | HttpResult.response status errorText =>
        let ok := status == 200
        { success := ok
          logs := [{ userId := user.id, title := title, message := message,
                     notificationType := notificationType, fcmToken := fcmToken,
                     success := ok, errorMessage := if ok then "" else errorText }]
          credCalls := 1, httpCalls := 1, posted := some payload }
      | HttpResult.exception msg =>
        { success := false
          logs := [{ userId := user.id, title := title, message := message,
                     notificationType := notificationType, fcmToken := fcmToken,
                     success := false, errorMessage := msg }]
          credCalls := 1, httpCalls := 1, posted := some payload }

/-- Whether the HTTP POST returned status 200 (spec-side predicate used to
state what the log's `success` field should be). -/
def isStatus200 : HttpResult → Bool
  | HttpResult.response s _ => s == 200
  | HttpResult.exception _ => false

/-- A `SystemNotification` row (models.py lines 183-223): `user` is
nullable (null means broadcast to all users); `link` is `blank=True`, with
`""` for an absent link (Python-falsy, so the `if system_notification.link`
guard skips it). -/
structure SystemNotification where
  id : Nat
  user : Option User
  title : String
  message : String
  notificationType : String
  link : String
  deriving Repr, DecidableEq

/-- The `data_payload` built by `send_system_notification_fcm`
(services.py lines 162-173): type, notification_type, notification_id,
title, body, plus the link when it is non-empty. -/
def systemDataPayload (sn : SystemNotification) : List (String × PyValue) :=
  let base := [("type", PyValue.str "system_notification"),
               ("notification_type", PyValue.str sn.notificationType),
               ("notification_id", PyValue.str (toString sn.id)),
               ("title", PyValue.str sn.title),
               ("body", PyValue.str sn.message)]
  if sn.link = "" then base else base ++ [("link", PyValue.str sn.link)]

/-- The per-user loop of `send_system_notification_fcm` (services.py lines
160-182): for each user with a profile and a truthy token, one call to
`send_fcm_notification_with_data`; other users are skipped. `http` gives
the transport outcome for the POST made on behalf of each user id. -/
def dispatchLoop (cred : Option String) (http : Nat → HttpResult)
    (sn : SystemNotification) : List User → List (Nat × SendResult)
  | [] => []
  | u :: rest =>
    if hasToken u then
      (u.id, send_fcm_notification_with_data cred (http u.id) u sn.title sn.message
          sn.notificationType (some (systemDataPayload sn))) ::
        dispatchLoop cred http sn rest
    else dispatchLoop cred http sn rest

/-- `send_system_notification_fcm(system_notification)` (services.py lines
144-182): audience is the named user if any, else every user whose profile
holds a non-null, non-empty token; then the per-user send loop. `allUsers`
is the `User` table. Returns one `(user id, SendResult)` per send call. -/
def send_system_notification_fcm (cred : Option String) (http : Nat → HttpResult)
    (allUsers : List User) (sn : SystemNotification) : List (Nat × SendResult) :=
  let users := match sn.user with
    | some u => [u]
    | Option.none => allUsers.filter hasToken
  dispatchLoop cred http sn users

/-- A `FollowUp` row (models.py lines 138-160): `sales_executive` is a
nullable FK; `due_date` is a datetime, kept here as minutes since an epoch
(the stored UTC instant). -/
structure FollowUp where
  id : Nat
  customerName : String
  salesExecutive : Option User
  dueDate : Nat
  reminderSent : Bool
  completed : Bool
  deriving Repr, DecidableEq

def minutesPerDay : Nat := 1440

/-- The calendar date (day number) of a UTC instant. Under `USE_TZ=True`
(the project runs with it: src/api/admin_views.py converts with
`timezone.localtime` and its comments say so), `timezone.now()` is an
aware UTC datetime, so `timezone.now().date()` is this UTC date. -/
def utcDate (t : Nat) : Nat :=
  t / minutesPerDay

/-- Modelled from the spec: the project settings file (settings.py, with
`TIME_ZONE` and `USE_TZ`) is not under src/; per the spec the deployment
has a fixed local reference time zone (the source's comments name
Asia/Kolkata, UTC+05:30). `localDate tz t` is the calendar date of instant
`t` in a zone `tz` minutes east of UTC — the date Django's
`due_date__date` lookup compares against, since `__date` casts the stored
datetime to the current time zone when `USE_TZ=True`. -/
def localDate (tz t : Nat) : Nat :=
  (t + tz) / minutesPerDay

/-- `today = timezone.now().date()` as computed by the scanner
(services.py line 300): the UTC date of `now`. -/
def scannerToday (now : Nat) : Nat :=
  utcDate now

/-- The queryset filter `due_date__date=d, completed=False,
reminder_sent=False` (services.py lines 304-308 and 324-328), with the
`__date` cast done in the reference zone `tz`. -/
def dueOn (tz d : Nat) (f : FollowUp) : Bool :=
  localDate tz f.dueDate == d && !f.completed && !f.reminderSent

/-- The message f-string of the due-today loop (services.py line 312). -/
def dueTodayMessage (f : FollowUp) : String :=
  "Follow-up with " ++ f.customerName ++ " is due today"

/-- The message f-string of the due-tomorrow loop (services.py line 332). -/
def dueTomorrowMessage (f : FollowUp) : String :=
  "Follow-up with " ++ f.customerName ++ " is due tomorrow"

/-- One invocation of the delivery client made by the scanner: which
follow-up it was for, the message sent, and what the client did. -/
structure SendCall where
  followupId : Nat
  message : String
  result : SendResult
  deriving Repr, DecidableEq

/-- `followup.reminder_sent = True; followup.save()` (services.py lines
320-321) as an update of the follow-up table. -/
def setReminderSent (fs : List FollowUp) (fid : Nat) : List FollowUp :=
  fs.map (fun g => if g.id == fid then { g with reminderSent := true } else g)

/-- The due-today loop (services.py lines 310-321): iterates the selected
rows; for each with an assigned sales executive it sends the due-today
reminder, then sets and saves `reminder_sent`; rows without one are left
untouched. Threads the follow-up table and collects the send calls. -/
def todayLoop (cred : Option String) (http : Nat → HttpResult) :
    List FollowUp → List FollowUp → List FollowUp × List SendCall
  | [], fs => (fs, [])
  | f :: rest, fs =>
    match f.salesExecutive with
    | some u =>
      let r := send_fcm_notification cred (http f.id) u "Follow-up Reminder"
        (dueTodayMessage f) "followup_reminder"
      let fs1 := setReminderSent fs f.id
      let next := todayLoop cred http rest fs1
      (next.1, { followupId := f.id, message := dueTodayMessage f, result := r } :: next.2)
    | Option.none => todayLoop cred http rest fs

/-- The due-tomorrow loop (services.py lines 330-339): sends the
due-tomorrow reminder for each selected row with an assigned sales
executive, and mutates nothing. -/
def tomorrowLoop (cred : Option String) (http : Nat → HttpResult) :
    List FollowUp → List SendCall
  | [] => []
  | f :: rest =>
    match f.salesExecutive with
    | some u =>
      let r := send_fcm_notification cred (http f.id) u "Follow-up Reminder"
        (dueTomorrowMessage f) "followup_reminder"
      { followupId := f.id, message := dueTomorrowMessage f, result := r } ::
        tomorrowLoop cred http rest
    | Option.none => tomorrowLoop cred http rest

/-- `send_followup_reminders()` (services.py lines 298-339): computes
today (UTC date of `now`) and tomorrow (today + 1); selects and processes
the due-today rows (the queryset is evaluated against the initial table),
then selects the due-tomorrow rows against the updated table and processes
them. Returns the updated follow-up table and all send calls in order. -/
def send_followup_reminders (cred : Option String) (http : Nat → HttpResult)
    (tz now : Nat) (fs : List FollowUp) : List FollowUp × List SendCall :=
  let today := scannerToday now
  let tomorrow := today + 1
  let selToday := fs.filter (dueOn tz today)
  let step1 := todayLoop cred http selToday fs
  let selTomorrow := step1.1.filter (dueOn tz tomorrow)
  let callsTomorrow := tomorrowLoop cred http selTomorrow
  (step1.1, step1.2 ++ callsTomorrow)

/-! ### Helper lemmas -/

/-- Past the token precondition, `send_fcm_notification` writes exactly one
log row, for every credential and transport outcome. -/
theorem send_logs_length (cred : Option String) (http : HttpResult) (u : User)
    (tok : String) (h : tokenOf u = some tok) (title message ntype : String) :
    (send_fcm_notification cred http u title message ntype).logs.length = 1 := by
  cases cred <;> cases http <;> simp [send_fcm_notification, h]

/-- Past the token precondition, `send_fcm_notification_with_data` writes
exactly one log row, for every credential and transport outcome. -/
theorem send_with_data_logs_length (cred : Option String) (http : HttpResult)
    (u : User) (h : hasToken u = true) (title message ntype : String)
    (data : Option (List (String × PyValue))) :
    (send_fcm_notification_with_data cred http u title message ntype data).logs.length = 1 := by
  unfold hasToken at h
  cases htok : tokenOf u with
  | none => rw [htok] at h; simp at h
  | some tok => cases cred <;> cases http <;> simp [send_fcm_notification_with_data, htok]

/-- A user with profile and token, used by witnesses. -/
def sampleUser : User :=
  { id := 1, profile := some { fcmToken := some "tok1" } }

/-- A user whose profile has a blank token, used by witnesses. -/
def sampleTokenless : User :=
  { id := 3, profile := some { fcmToken := some "" } }

/-! ### C1 -/

/-- C1: every delivery-client call (either entry point) whose recipient has
a non-empty registration token creates exactly one `NotificationLog` row,
and its `success` field is `true` iff the credential was obtained and the
HTTP POST returned status 200 — `false` on credential failure, non-200
status, or transport exception. -/
theorem every_send_attempt_logged (user : User) (tok : String)
    (h : tokenOf user = some tok) (cred : Option String) (http : HttpResult)
    (title message ntype : String) (data : Option (List (String × PyValue))) :
    (send_fcm_notification cred http user title message ntype).logs.map
        NotificationLog.success = [cred.isSome && isStatus200 http]
    ∧ (send_fcm_notification_with_data cred http user title message ntype data).logs.map
        NotificationLog.success = [cred.isSome && isStatus200 http] := by
  cases cred <;> cases http <;>
    simp [send_fcm_notification, send_fcm_notification_with_data, isStatus200, h]

/-- C1 witness: a token-holding user, a good credential and a 200 response
give a single log row with `success = true` in both entry points. -/
theorem every_send_attempt_logged_witness :
    tokenOf sampleUser = some "tok1"
    ∧ ((send_fcm_notification (some "at") (HttpResult.response 200 "") sampleUser
          "T" "M" "nt").logs.map NotificationLog.success
        = [(some "at" : Option String).isSome && isStatus200 (HttpResult.response 200 "")]
      ∧ (send_fcm_notification_with_data (some "at") (HttpResult.response 200 "") sampleUser
          "T" "M" "nt" Option.none).logs.map NotificationLog.success
        = [(some "at" : Option String).isSome && isStatus200 (HttpResult.response 200 "")]) :=
  ⟨by decide,
   every_send_attempt_logged sampleUser "tok1" (by decide) (some "at")
     (HttpResult.response 200 "") "T" "M" "nt" Option.none⟩

/-! ### C4 -/

/-- C4: when the recipient has a token but the credential provider returns
no token, both entry points make no HTTP POST, create exactly one log row
whose error detail is the credential-failure text, and return failure. -/
theorem credential_failure_short_circuit (user : User) (tok : String)
    (h : tokenOf user = some tok) (http : HttpResult)
    (title message ntype : String) (data : Option (List (String × PyValue))) :
    send_fcm_notification Option.none http user title message ntype
      = { success := false
          logs := [{ userId := user.id, title := title, message := message,
                     notificationType := ntype, fcmToken := tok, success := false,
                     errorMessage := "Failed to get OAuth2 access token" }]
          credCalls := 1, httpCalls := 0, posted := Option.none }
    ∧ send_fcm_notification_with_data Option.none http user title message ntype data
      = { success := false
          logs := [{ userId := user.id, title := title, message := message,
                     notificationType := ntype, fcmToken := tok, success := false,
                     errorMessage := "Failed to get OAuth2 access token" }]
          credCalls := 1, httpCalls := 0, posted := Option.none } := by
  simp [send_fcm_notification, send_fcm_notification_with_data, h]

/-- C4 witness: the credential-failure short circuit at a concrete user. -/
theorem credential_failure_short_circuit_witness :
    tokenOf sampleUser = some "tok1"
    ∧ (send_fcm_notification Option.none (HttpResult.response 200 "") sampleUser "T" "M" "nt"
        = { success := false
            logs := [{ userId := sampleUser.id, title := "T", message := "M",
                       notificationType := "nt", fcmToken := "tok1", success := false,
                       errorMessage := "Failed to get OAuth2 access token" }]
            credCalls := 1, httpCalls := 0, posted := Option.none }
      ∧ send_fcm_notification_with_data Option.none (HttpResult.response 200 "") sampleUser
          "T" "M" "nt" Option.none
        = { success := false
            logs := [{ userId := sampleUser.id, title := "T", message := "M",
                       notificationType := "nt", fcmToken := "tok1", success := false,
                       errorMessage := "Failed to get OAuth2 access token" }]
            credCalls := 1, httpCalls := 0, posted := Option.none }) :=
  ⟨by decide,
   credential_failure_short_circuit sampleUser "tok1" (by decide)
     (HttpResult.response 200 "") "T" "M" "nt" Option.none⟩

/-! ### C6 -/

/-- C6: when the recipient has no profile or an empty/missing token, both
entry points return failure immediately with no credential call, no HTTP
POST, and no log row. -/
theorem missing_token_noop (user : User) (h : tokenOf user = Option.none)
    (cred : Option String) (http : HttpResult) (title message ntype : String)
    (data : Option (List (String × PyValue))) :
    send_fcm_notification cred http user title message ntype
      = { success := false, logs := [], credCalls := 0, httpCalls := 0, posted := Option.none }
    ∧ send_fcm_notification_with_data cred http user title message ntype data
      = { success := false, logs := [], credCalls := 0, httpCalls := 0, posted := Option.none } := by
  simp [send_fcm_notification, send_fcm_notification_with_data, h]

/-- C6 witness: the no-op at a user whose stored token is blank. -/
theorem missing_token_noop_witness :
    tokenOf sampleTokenless = Option.none
    ∧ (send_fcm_notification (some "at") (HttpResult.response 200 "") sampleTokenless "T" "M" "nt"
        = { success := false, logs := [], credCalls := 0, httpCalls := 0, posted := Option.none }
      ∧ send_fcm_notification_with_data (some "at") (HttpResult.response 200 "") sampleTokenless
          "T" "M" "nt" Option.none
        = { success := false, logs := [], credCalls := 0, httpCalls := 0, posted := Option.none }) :=
  ⟨by decide,
   missing_token_noop sampleTokenless (by decide) (some "at")
     (HttpResult.response 200 "") "T" "M" "nt" Option.none⟩

/-! ### C7 -/

/-- C7 counterexample: `send_fcm_notification_with_data` does not merge
`type`/`title`/`body` into its data block — for `extra_data` holding only a
link, the composed data block is just that link, with no `type` and no
`title` key, contradicting the claim that every composed data block merges
them. -/
theorem composer_merge_counterexample :
    (fcmPayloadWithData "tok" "T" "B" (some [("link", PyValue.str "/x")])).data
      = [("link", "/x")]
    ∧ (fcmPayloadWithData "tok" "T" "B" (some [("link", PyValue.str "/x")])).data.find?
        (fun kv => kv.1 == "type") = Option.none
    ∧ (fcmPayloadWithData "tok" "T" "B" (some [("link", PyValue.str "/x")])).data.find?
        (fun kv => kv.1 == "title") = Option.none := by
  exact ⟨rfl, rfl, rfl⟩

/-- C7 amended: `send_fcm_notification`'s data block is exactly
`type`/`title`/`body`; `send_fcm_notification_with_data`'s data block is
exactly the string-coerced `extra_data` entries (so `type`/`title`/`body`
appear only when the caller passes them), every `extra_data` entry appears
string-coerced, and the coercion sends null to the empty string, keeps
strings, and stringifies other values. -/
theorem composer_data_block (fcmToken title message ntype : String)
    (extra : List (String × PyValue)) :
    (fcmPayload fcmToken title message ntype).data
      = [("type", ntype), ("title", title), ("body", message)]
    ∧ (fcmPayloadWithData fcmToken title message (some extra)).data = coerceData extra
    ∧ (∀ k v, (k, v) ∈ extra →
        (k, coerceValue v) ∈ (fcmPayloadWithData fcmToken title message (some extra)).data)
    ∧ coerceValue PyValue.none = ""
    ∧ (∀ s, coerceValue (PyValue.str s) = s)
    ∧ (∀ n, coerceValue (PyValue.int n) = toString n) := by
  refine ⟨rfl, rfl, ?_, rfl, fun s => rfl, fun n => rfl⟩
  intro k v hv
  exact List.mem_map.mpr ⟨(k, v), hv, rfl⟩

/-- C7 witness: the spec's round-trip example — `extra_data` with
`link="/x"` and a null `count` yields `link="/x"` and `count=""` in the
composed data block. -/
theorem composer_data_block_witness :
    ("link", PyValue.str "/x")
        ∈ ([("link", PyValue.str "/x"), ("count", PyValue.none)] : List (String × PyValue))
    ∧ ("count", PyValue.none)
        ∈ ([("link", PyValue.str "/x"), ("count", PyValue.none)] : List (String × PyValue))
    ∧ ("link", "/x") ∈ (fcmPayloadWithData "tok" "T" "B"
        (some [("link", PyValue.str "/x"), ("count", PyValue.none)])).data
    ∧ ("count", "") ∈ (fcmPayloadWithData "tok" "T" "B"
        (some [("link", PyValue.str "/x"), ("count", PyValue.none)])).data :=
  ⟨by decide, by decide,
   (composer_data_block "tok" "T" "B" "nt"
      [("link", PyValue.str "/x"), ("count", PyValue.none)]).2.2.1
     "link" (PyValue.str "/x") (by decide),
   (composer_data_block "tok" "T" "B" "nt"
      [("link", PyValue.str "/x"), ("count", PyValue.none)]).2.2.1
     "count" PyValue.none (by decide)⟩

/-! ### C8 -/

/-- C8 counterexample: the payload composed by `send_fcm_notification` has
no `webpush` section, so the delivery hints are not replicated across a web
hint section for that entry point. -/
theorem plain_payload_no_webpush :
    (fcmPayload "tok" "T" "B" "followup_reminder").webpush = Option.none := rfl

/-- C8 amended: both entry points' payloads carry android hints (high
priority, default sound, default channel id) and apns hints (priority 10,
default sound); a `webpush` section is present only in the
`send_fcm_notification_with_data` payload (where it replicates title and
body), and absent from the `send_fcm_notification` payload. -/
theorem delivery_hints_sections (fcmToken title message ntype : String)
    (data : Option (List (String × PyValue))) :
    (fcmPayload fcmToken title message ntype).android
      = some { priority := "high", sound := "default", channelId := "high_importance_channel" }
    ∧ (fcmPayload fcmToken title message ntype).apns
      = some { apnsPriority := "10", sound := "default", badge := Option.none }
    ∧ (fcmPayload fcmToken title message ntype).webpush = Option.none
    ∧ (fcmPayloadWithData fcmToken title message data).android
      = some { priority := "high", sound := "default", channelId := "high_importance_channel" }
    ∧ (fcmPayloadWithData fcmToken title message data).apns
      = some { apnsPriority := "10", sound := "default", badge := some 1 }
    ∧ (fcmPayloadWithData fcmToken title message data).webpush.map WebpushHints.title
      = some title
    ∧ (fcmPayloadWithData fcmToken title message data).webpush.map WebpushHints.body
      = some message :=
  ⟨rfl, rfl, rfl, rfl, rfl, rfl, rfl⟩

/-! ### C9 -/

/-- C9: the scanner's `today` is the UTC calendar date of `now`, not the
date in the deployment's local reference zone. At `now` = 20:00 UTC of day
0 with the Asia/Kolkata offset (+330 minutes), the local calendar date is
already day 1, but the scanner computes day 0 — while the `due_date__date`
lookup it feeds compares local dates. The repository's own dashboard code
(src/api/admin_views.py) converts with `timezone.localtime` before taking
the date, so the scanner's bare `timezone.now().date()` is the slip. -/
theorem scanner_today_is_utc_not_local :
    scannerToday 1200 = 0 ∧ localDate 330 1200 = 1
    ∧ scannerToday 1200 ≠ localDate 330 1200 := by
  decide

/-! ### C2 -/

/-- C2: a follow-up selected by the due-today filter with an assigned
recipient gets exactly one delivery-client invocation (the due-today push),
its `reminder_sent` flag is set and saved regardless of the credential and
transport outcome, and a second scanner run on the same day makes no
further invocation for it. -/
theorem due_today_idempotent (f : FollowUp) (u : User) (tz now now2 : Nat)
    (cred cred2 : Option String) (http http2 : Nat → HttpResult)
    (hdue : dueOn tz (scannerToday now) f = true)
    (hexec : f.salesExecutive = some u)
    (hday : scannerToday now2 = scannerToday now) :
    (send_followup_reminders cred http tz now [f]).2.map
        (fun c => (c.followupId, c.message)) = [(f.id, dueTodayMessage f)]
    ∧ (send_followup_reminders cred http tz now [f]).1
      = [{ f with reminderSent := true }]
    ∧ (send_followup_reminders cred2 http2 tz now2
        (send_followup_reminders cred http tz now [f]).1).2 = [] := by
  have hf : ∀ (d : Nat) (g : FollowUp), g.reminderSent = true → dueOn tz d g = false := by
    intro d g hg; simp [dueOn, hg]
  simp [send_followup_reminders, todayLoop, tomorrowLoop, setReminderSent,
        hdue, hexec, hf, List.filter_cons]

/-- A follow-up due during day 0 (UTC), used by witnesses. -/
def demoFollowUp : FollowUp :=
  { id := 10, customerName := "Acme", salesExecutive := some sampleUser,
    dueDate := 100, reminderSent := false, completed := false }

/-- C2 witness: the idempotent due-today run at a concrete follow-up, with
a second run later the same day. -/
theorem due_today_idempotent_witness :
    dueOn 0 (scannerToday 0) demoFollowUp = true
    ∧ demoFollowUp.salesExecutive = some sampleUser
    ∧ scannerToday 5 = scannerToday 0
    ∧ ((send_followup_reminders (some "at") (fun _ => HttpResult.response 200 "") 0 0
          [demoFollowUp]).2.map (fun c => (c.followupId, c.message))
        = [(demoFollowUp.id, dueTodayMessage demoFollowUp)]
      ∧ (send_followup_reminders (some "at") (fun _ => HttpResult.response 200 "") 0 0
          [demoFollowUp]).1 = [{ demoFollowUp with reminderSent := true }]
      ∧ (send_followup_reminders (some "at") (fun _ => HttpResult.response 200 "") 0 5
          (send_followup_reminders (some "at") (fun _ => HttpResult.response 200 "") 0 0
            [demoFollowUp]).1).2 = []) :=
  ⟨by decide, rfl, rfl,
   due_today_idempotent demoFollowUp sampleUser 0 0 5 (some "at") (some "at")
     (fun _ => HttpResult.response 200 "") (fun _ => HttpResult.response 200 "")
     (by decide) rfl rfl⟩

/-! ### C3 -/

/-- C3: a follow-up due tomorrow (uncompleted, flag clear, assigned to a
token-holding recipient) gets the due-tomorrow push but keeps
`reminder_sent = false`, so the next day's run selects it again on the
due-today pass and sends a second, distinct push; each of the two
invocations writes exactly one log row. -/
theorem due_tomorrow_resend (f : FollowUp) (u : User) (tok : String)
    (tz now1 now2 : Nat) (cred1 cred2 : Option String) (http1 http2 : Nat → HttpResult)
    (hdue : localDate tz f.dueDate = scannerToday now1 + 1)
    (hc : f.completed = false) (hr : f.reminderSent = false)
    (hexec : f.salesExecutive = some u)
    (htok : tokenOf u = some tok)
    (hday : scannerToday now2 = scannerToday now1 + 1) :
    (send_followup_reminders cred1 http1 tz now1 [f]).1 = [f]
    ∧ (send_followup_reminders cred1 http1 tz now1 [f]).2.map
        (fun c => (c.followupId, c.message)) = [(f.id, dueTomorrowMessage f)]
    ∧ (∀ c ∈ (send_followup_reminders cred1 http1 tz now1 [f]).2,
        c.result.logs.length = 1)
    ∧ (send_followup_reminders cred2 http2 tz now2 [f]).2.map
        (fun c => (c.followupId, c.message)) = [(f.id, dueTodayMessage f)]
    ∧ (∀ c ∈ (send_followup_reminders cred2 http2 tz now2 [f]).2,
        c.result.logs.length = 1)
    ∧ dueTomorrowMessage f ≠ dueTodayMessage f := by
  have hmsg : dueTomorrowMessage f ≠ dueTodayMessage f := by
    intro h
    have hl := congrArg String.length h
    have l1 : (" is due tomorrow" : String).length = 16 := rfl
    have l2 : (" is due today" : String).length = 13 := rfl
    simp [dueTomorrowMessage, dueTodayMessage, String.length_append, l1, l2] at hl
  have h1 : dueOn tz (scannerToday now1) f = false := by
    simp [dueOn, hdue]
  have h2 : dueOn tz (scannerToday now1 + 1) f = true := by
    simp [dueOn, hdue, hc, hr]
  have h3 : dueOn tz (scannerToday now2) f = true := by
    rw [hday]; exact h2
  have hf : ∀ (d : Nat) (g : FollowUp), g.reminderSent = true → dueOn tz d g = false := by
    intro d g hg; simp [dueOn, hg]
  have L1 := send_logs_length cred1 (http1 f.id) u tok htok "Follow-up Reminder"
    (dueTomorrowMessage f) "followup_reminder"
  have L2 := send_logs_length cred2 (http2 f.id) u tok htok "Follow-up Reminder"
    (dueTodayMessage f) "followup_reminder"
  simp [send_followup_reminders, todayLoop, tomorrowLoop, setReminderSent,
        h1, h2, h3, hf, hexec, hmsg, L1, L2, List.filter_cons]

/-- A follow-up due during day 1 (UTC), used by witnesses. -/
def demoFollowUpTomorrow : FollowUp :=
  { id := 11, customerName := "Acme", salesExecutive := some sampleUser,
    dueDate := 1500, reminderSent := false, completed := false }

/-- C3 witness: scanning the day before and then the due day at a concrete
follow-up yields the due-tomorrow and then the due-today push. -/
theorem due_tomorrow_resend_witness :
    localDate 0 demoFollowUpTomorrow.dueDate = scannerToday 0 + 1
    ∧ demoFollowUpTomorrow.completed = false
    ∧ demoFollowUpTomorrow.reminderSent = false
    ∧ demoFollowUpTomorrow.salesExecutive = some sampleUser
    ∧ tokenOf sampleUser = some "tok1"
    ∧ scannerToday 1500 = scannerToday 0 + 1
    ∧ ((send_followup_reminders (some "at") (fun _ => HttpResult.response 200 "") 0 0
          [demoFollowUpTomorrow]).1 = [demoFollowUpTomorrow]
      ∧ (send_followup_reminders (some "at") (fun _ => HttpResult.response 200 "") 0 0
          [demoFollowUpTomorrow]).2.map (fun c => (c.followupId, c.message))
        = [(demoFollowUpTomorrow.id, dueTomorrowMessage demoFollowUpTomorrow)]
      ∧ (∀ c ∈ (send_followup_reminders (some "at") (fun _ => HttpResult.response 200 "")
            0 0 [demoFollowUpTomorrow]).2, c.result.logs.length = 1)
      ∧ (send_followup_reminders (some "at") (fun _ => HttpResult.response 200 "") 0 1500
          [demoFollowUpTomorrow]).2.map (fun c => (c.followupId, c.message))
        = [(demoFollowUpTomorrow.id, dueTodayMessage demoFollowUpTomorrow)]
      ∧ (∀ c ∈ (send_followup_reminders (some "at") (fun _ => HttpResult.response 200 "")
            0 1500 [demoFollowUpTomorrow]).2, c.result.logs.length = 1)
      ∧ dueTomorrowMessage demoFollowUpTomorrow ≠ dueTodayMessage demoFollowUpTomorrow) :=
  ⟨by decide, rfl, rfl, rfl, by decide, by decide,
   due_tomorrow_resend demoFollowUpTomorrow sampleUser "tok1" 0 0 1500
     (some "at") (some "at") (fun _ => HttpResult.response 200 "")
     (fun _ => HttpResult.response 200 "") (by decide) rfl rfl rfl (by decide) (by decide)⟩

/-! ### C10 -/

/-- C10: a due-today follow-up whose assigned recipient has no usable token
still gets its `reminder_sent` flag set and saved, while the delivery
client returns immediately with no credential call, no POST and no log row;
afterwards the record is never selected again, for any later run, zone,
date, environment, or newly assigned recipient (e.g. one with a token). -/
theorem token_missing_flag_still_set (f : FollowUp) (u : User) (tz now : Nat)
    (cred : Option String) (http : Nat → HttpResult)
    (hdue : dueOn tz (scannerToday now) f = true)
    (hexec : f.salesExecutive = some u)
    (htok : tokenOf u = Option.none)
    (tz2 now2 : Nat) (cred2 : Option String) (http2 : Nat → HttpResult) (u2 : User) :
    (send_followup_reminders cred http tz now [f]).1 = [{ f with reminderSent := true }]
    ∧ (send_followup_reminders cred http tz now [f]).2
      = [{ followupId := f.id, message := dueTodayMessage f,
           result := { success := false, logs := [], credCalls := 0, httpCalls := 0,
                       posted := Option.none } }]
    ∧ (send_followup_reminders cred2 http2 tz2 now2
        [{ f with reminderSent := true, salesExecutive := some u2 }]).2 = [] := by
  have hf : ∀ (tzx d : Nat) (g : FollowUp), g.reminderSent = true → dueOn tzx d g = false := by
    intro tzx d g hg; simp [dueOn, hg]
  simp [send_followup_reminders, todayLoop, tomorrowLoop, setReminderSent,
        send_fcm_notification, hdue, hexec, htok, hf, List.filter_cons]

/-- A due-today follow-up assigned to the blank-token user, used by
witnesses. -/
def demoFollowUpNoToken : FollowUp :=
  { id := 12, customerName := "Acme", salesExecutive := some sampleTokenless,
    dueDate := 100, reminderSent := false, completed := false }

/-- C10 witness: the flag is set with no attempt and no log at a concrete
follow-up, and a later run with a token-holding recipient sends nothing. -/
theorem token_missing_flag_still_set_witness :
    dueOn 0 (scannerToday 0) demoFollowUpNoToken = true
    ∧ demoFollowUpNoToken.salesExecutive = some sampleTokenless
    ∧ tokenOf sampleTokenless = Option.none
    ∧ ((send_followup_reminders (some "at") (fun _ => HttpResult.response 200 "") 0 0
          [demoFollowUpNoToken]).1 = [{ demoFollowUpNoToken with reminderSent := true }]
      ∧ (send_followup_reminders (some "at") (fun _ => HttpResult.response 200 "") 0 0
          [demoFollowUpNoToken]).2
        = [{ followupId := demoFollowUpNoToken.id,
             message := dueTodayMessage demoFollowUpNoToken,
             result := { success := false, logs := [], credCalls := 0, httpCalls := 0,
                         posted := Option.none } }]
      ∧ (send_followup_reminders (some "at") (fun _ => HttpResult.response 200 "") 330 99999
          [{ demoFollowUpNoToken with reminderSent := true, salesExecutive := some sampleUser }]).2
        = []) :=
  ⟨by decide, rfl, by decide,
   token_missing_flag_still_set demoFollowUpNoToken sampleTokenless 0 0 (some "at")
     (fun _ => HttpResult.response 200 "") (by decide) rfl (by decide) 330 99999
     (some "at") (fun _ => HttpResult.response 200 "") sampleUser⟩

/-! ### C5 -/

/-- The dispatcher loop over users that all hold tokens is one send per
user, in order. -/
theorem dispatchLoop_map (cred : Option String) (http : Nat → HttpResult)
    (sn : SystemNotification) :
    ∀ l : List User, (∀ u ∈ l, hasToken u = true) →
      dispatchLoop cred http sn l
        = l.map (fun u => (u.id, send_fcm_notification_with_data cred (http u.id) u
            sn.title sn.message sn.notificationType (some (systemDataPayload sn)))) := by
  intro l
  induction l with
  | nil => intro _; rfl
  | cons u rest ih =>
    intro h
    have hu : hasToken u = true := h u (List.mem_cons_self u rest)
    simp [dispatchLoop, hu, ih (fun v hv => h v (List.mem_cons_of_mem u hv))]

/-- C5: a broadcast system notification (no target user) makes one delivery
attempt per user holding a non-empty token — in table order, with exactly
one log row per attempt — and none for users without a token; a targeted
notification reaches only its named user (one attempt if that user holds a
token, none otherwise). -/
theorem broadcast_fanout (cred : Option String) (http : Nat → HttpResult)
    (allUsers : List User) (sn : SystemNotification) :
    (sn.user = Option.none →
      (send_system_notification_fcm cred http allUsers sn).map Prod.fst
        = (allUsers.filter hasToken).map User.id
      ∧ ∀ c ∈ send_system_notification_fcm cred http allUsers sn, c.2.logs.length = 1)
    ∧ (∀ u, sn.user = some u →
        send_system_notification_fcm cred http allUsers sn
          = (if hasToken u then
              [(u.id, send_fcm_notification_with_data cred (http u.id) u sn.title
                  sn.message sn.notificationType (some (systemDataPayload sn)))]
             else [])) := by
  constructor
  · intro hnone
    have hall : ∀ u ∈ allUsers.filter hasToken, hasToken u = true :=
      fun u hu => (List.mem_filter.mp hu).2
    have heq : send_system_notification_fcm cred http allUsers sn
        = (allUsers.filter hasToken).map
            (fun u => (u.id, send_fcm_notification_with_data cred (http u.id) u
              sn.title sn.message sn.notificationType (some (systemDataPayload sn)))) := by
      simp [send_system_notification_fcm, hnone]
      exact dispatchLoop_map cred http sn (allUsers.filter hasToken) hall
    constructor
    · rw [heq]; simp [List.map_map]
    · intro c hc
      rw [heq] at hc
      obtain ⟨u, hu, rfl⟩ := List.mem_map.mp hc
      exact send_with_data_logs_length cred (http u.id) u (hall u hu) sn.title
        sn.message sn.notificationType (some (systemDataPayload sn))
  · intro u hu
    simp [send_system_notification_fcm, hu, dispatchLoop]

/-- Further token-holding users for the fan-out witness. -/
def demoUserTwo : User :=
  { id := 2, profile := some { fcmToken := some "tok2" } }

/-- A fourth user, with a token, for the fan-out witness. -/
def demoUserFour : User :=
  { id := 4, profile := some { fcmToken := some "tok4" } }

/-- The user table of the fan-out witness: ids 1, 2 and 4 hold tokens, id 3
has a blank token. -/
def demoUsers : List User :=
  [sampleUser, demoUserTwo, sampleTokenless, demoUserFour]

/-- A broadcast system notification (no target user). -/
def demoBroadcast : SystemNotification :=
  { id := 7, user := Option.none, title := "Ti", message := "Me",
    notificationType := "info", link := "" }

/-- C5 witness: broadcasting to a table with three token-holders and one
blank-token user attempts deliveries exactly to users 1, 2 and 4. -/
theorem broadcast_fanout_witness :
    demoBroadcast.user = Option.none
    ∧ (send_system_notification_fcm (some "at") (fun _ => HttpResult.response 200 "")
        demoUsers demoBroadcast).map Prod.fst = [1, 2, 4] :=
  ⟨rfl, by
    have h := (broadcast_fanout (some "at") (fun _ => HttpResult.response 200 "")
      demoUsers demoBroadcast).1 rfl
    exact h.1.trans (by decide)⟩

end FieldTrack
